import Mathlib

/-!
Shallow embedding of the rideLvl real-time landmark-to-overlay pipeline:
the geometry module (`src/shared/utils/poseCalculations.js`), the configuration
constants (`src/shared/constants/mediapipe.js`), the detector gateway
(`src/features/upload/services/mediapipeService.js`) and the frame loop /
overlay logic (`src/features/library/hooks/usePoseDetection.js`).
JavaScript numbers are modelled as real numbers.
-/

namespace RideLvl

/-- A MediaPipe pose landmark: normalized position plus a visibility score. -/
structure Landmark where
  x : ℝ
  y : ℝ
  z : ℝ
  visibility : ℝ

/-- A 2-D vector, as produced by the geometry module. -/
structure Vec2 where
  x : ℝ
  y : ℝ

/-- `deg` from poseCalculations.js: convert radians to degrees,
`(rad * 180) / Math.PI`. -/
noncomputable def deg (rad : ℝ) : ℝ := rad * 180 / Real.pi

/-- `clamp` from poseCalculations.js: `Math.max(a, Math.min(b, n))`. -/
noncomputable def clamp (n a b : ℝ) : ℝ := max a (min b n)

/-- `Math.hypot(x, y)`. -/
noncomputable def hypot (x y : ℝ) : ℝ := Real.sqrt (x ^ 2 + y ^ 2)

/-- `torsoVector` from poseCalculations.js: null when fewer than 33 landmarks,
otherwise shoulder midpoint (indices 11, 12) minus hip midpoint (indices 23, 24). -/
noncomputable def torsoVector (landmarks : List Landmark) : Option Vec2 :=
  if h : landmarks.length < 33 then none
  else
    let shoulders : Vec2 :=
      ⟨(landmarks[11].x + landmarks[12].x) / 2, (landmarks[11].y + landmarks[12].y) / 2⟩
    let hips : Vec2 :=
      ⟨(landmarks[23].x + landmarks[24].x) / 2, (landmarks[23].y + landmarks[24].y) / 2⟩
    some ⟨shoulders.x - hips.x, shoulders.y - hips.y⟩

/-- `angleBetween` from poseCalculations.js: null when either magnitude is zero,
otherwise the inverse cosine (in degrees) of the normalized dot product clamped
to [-1, 1]. -/
noncomputable def angleBetween (v1 v2 : Vec2) : Option ℝ :=
  let dot := v1.x * v2.x + v1.y * v2.y
  let mag1 := hypot v1.x v1.y
  let mag2 := hypot v2.x v2.y
  if mag1 = 0 ∨ mag2 = 0 then none
  else some (deg (Real.arccos (clamp (dot / (mag1 * mag2)) (-1) 1)))

/-- `getPoseConnections` from poseCalculations.js: the fixed skeletal edge table. -/
def getPoseConnections : List (Nat × Nat) :=
  [(0, 1), (1, 2), (2, 3), (3, 7), (0, 4), (4, 5), (5, 6), (6, 8),
   (9, 10),
   (11, 12), (11, 13), (13, 15), (15, 17), (15, 19), (15, 21),
   (12, 14), (14, 16), (16, 18), (16, 20), (16, 22),
   (11, 23), (12, 24), (23, 24),
   (17, 19), (18, 20),
   (23, 25), (25, 27), (27, 29), (27, 31), (29, 31),
   (24, 26), (26, 28), (28, 30), (28, 32), (30, 32)]

/-- The shape of `REFERENCE_VECTORS` from constants/mediapipe.js. -/
structure ReferenceVectors where
  VERTICAL : Vec2
  SLOPE : Vec2

/-- `REFERENCE_VECTORS` from constants/mediapipe.js: the vertical reference and
the slope reference `(cos(25 * PI / 180), sin(25 * PI / 180))`. -/
noncomputable def REFERENCE_VECTORS : ReferenceVectors :=
  { VERTICAL := ⟨0, 1⟩
    SLOPE := ⟨Real.cos (25 * Real.pi / 180), Real.sin (25 * Real.pi / 180)⟩ }

/-- The shape of `MEDIAPIPE_CONFIG` from constants/mediapipe.js. -/
structure MediapipeConfig where
  WASM_URL : String
  MODEL_URL : String
  RUNNING_MODE : String
  NUM_POSES : Nat

/-- `MEDIAPIPE_CONFIG` from constants/mediapipe.js. -/
def MEDIAPIPE_CONFIG : MediapipeConfig :=
  { WASM_URL := "https://cdn.jsdelivr.net/npm/@mediapipe/tasks-vision@latest/wasm"
    MODEL_URL := "https://storage.googleapis.com/mediapipe-models/pose_landmarker/pose_landmarker_full/float16/latest/pose_landmarker_full.task"
    RUNNING_MODE := "VIDEO"
    NUM_POSES := 1 }

/-- The `baseOptions` object passed to `PoseLandmarker.createFromOptions`. -/
structure BaseOptions where
  modelAssetPath : String
  deriving DecidableEq

/-- The options record accepted by `PoseLandmarker.createFromOptions`. MediaPipe
also accepts optional `minPoseDetectionConfidence` and `minTrackingConfidence`
fields; a key absent from the JavaScript object literal is modelled as `none`. -/
structure PoseLandmarkerOptions where
  baseOptions : BaseOptions
  runningMode : String
  numPoses : Nat
  minPoseDetectionConfidence : Option ℚ
  minTrackingConfidence : Option ℚ
  deriving DecidableEq

/-- The options object built by `getLandmarker` in mediapipeService.js: it sets
only the model asset path, running mode and pose count. -/
def landmarkerOptions : PoseLandmarkerOptions :=
  { baseOptions := { modelAssetPath := MEDIAPIPE_CONFIG.MODEL_URL }
    runningMode := MEDIAPIPE_CONFIG.RUNNING_MODE
    numPoses := MEDIAPIPE_CONFIG.NUM_POSES
    minPoseDetectionConfidence := none
    minTrackingConfidence := none }

/-- How a promise eventually settles. -/
inductive PromiseOutcome where
  | resolved
  | rejected
  deriving DecidableEq

/-- A promise, modelled as an identity together with its eventual outcome. -/
structure Promise where
  id : Nat
  outcome : PromiseOutcome
  deriving DecidableEq

/-- The module state of mediapipeService.js: `let landmarkerPromise = null`. -/
structure GatewayState where
  landmarkerPromise : Option Promise
  deriving DecidableEq

/-- One call to `getLandmarker()`: when the cached reference is null, the async
construction body starts and its (fresh) promise is cached; the cached promise
is returned. Result: (returned promise, new state, whether a construction
was started by this call). -/
def getLandmarker (fresh : Promise) (s : GatewayState) : Promise × GatewayState × Bool :=
  match s.landmarkerPromise with
  | some p => (p, s, false)
  | none => (fresh, ⟨some fresh⟩, true)

/-- The `catch` branch of the construction body in `getLandmarker`: it logs the
error and rethrows. It performs no assignment to `landmarkerPromise`, so the
gateway state is unchanged. -/
def onConstructionFailure (s : GatewayState) : GatewayState := s

/-- `resetLandmarker()` from mediapipeService.js: `landmarkerPromise = null`. -/
def resetLandmarker (_s : GatewayState) : GatewayState := ⟨none⟩

/-- A sequence of successive `getLandmarker()` calls with no intervening reset:
returns the promises handed to the callers, the final state, and the number of
constructions started. -/
def callN (freshes : List Promise) (s : GatewayState) :
    List Promise × GatewayState × Nat :=
  match freshes with
  | [] => ([], s, 0)
  | f :: fs =>
    let r1 := getLandmarker f s
    let rest := callN fs r1.2.1
    (r1.1 :: rest.1, rest.2.1, (if r1.2.2 then 1 else 0) + rest.2.2)

/-- A 33-landmark frame with shoulders at (0.4, 0.2)/(0.6, 0.2) and hips at
(0.4, 0.8)/(0.6, 0.8). -/
noncomputable def exampleLandmarks : List Landmark :=
  List.ofFn fun i : Fin 33 =>
    if i.val = 11 then ⟨0.4, 0.2, 0, 1⟩
    else if i.val = 12 then ⟨0.6, 0.2, 0, 1⟩
    else if i.val = 23 then ⟨0.4, 0.8, 0, 1⟩
    else if i.val = 24 then ⟨0.6, 0.8, 0, 1⟩
    else ⟨0, 0, 0, 1⟩

/-- A 33-landmark frame agreeing with `exampleLandmarks` on the x/y coordinates
of indices 11, 12, 23 and 24 but differing in every z coordinate, every
visibility score and every other landmark. -/
noncomputable def exampleLandmarks2 : List Landmark :=
  List.ofFn fun i : Fin 33 =>
    if i.val = 11 then ⟨0.4, 0.2, 5, 0⟩
    else if i.val = 12 then ⟨0.6, 0.2, -3, 0.1⟩
    else if i.val = 23 then ⟨0.4, 0.8, 2, 0.2⟩
    else if i.val = 24 then ⟨0.6, 0.8, 1, 0.05⟩
    else ⟨7, 7, 7, 0⟩

/-- A 33-landmark frame with every landmark at the same point, so that the
torso vector degenerates to the zero vector. -/
noncomputable def degenerateLandmarks : List Landmark :=
  List.ofFn fun _ : Fin 33 => ⟨0.5, 0.5, 0, 1⟩

/-- A two-landmark input for the overlay renderer with both visibilities above
the 0.3 threshold. -/
noncomputable def visLandmarks : List Landmark :=
  [⟨0.1, 0.1, 0, 1⟩, ⟨0.9, 0.9, 0, 0.5⟩]

/-- `Number(value.toFixed(1))` in runDetection: round to one decimal digit. -/
noncomputable def round1 (x : ℝ) : ℝ := round (x * 10) / 10

/-- The angle-update block of `runDetection` (usePoseDetection.js): when a
non-empty landmark set is present, derive the torso vector; when it exists,
compute both angles and overwrite each observable value only when its angle is
non-null, rounding to one decimal digit; a null angle leaves the previous
observable value untouched. -/
noncomputable def updateAngles (landmarks : List Landmark)
    (leanAngle slopeAngle : Option ℝ) : Option ℝ × Option ℝ :=
  if 0 < landmarks.length then
    match torsoVector landmarks with
    | some torso =>
      let leanAngleValue := angleBetween torso REFERENCE_VECTORS.VERTICAL
      let slopeAngleValue := angleBetween torso REFERENCE_VECTORS.SLOPE
      (match leanAngleValue with
        | some v => some (round1 v)
        | none => leanAngle,
       match slopeAngleValue with
        | some v => some (round1 v)
        | none => slopeAngle)
    | none => (leanAngle, slopeAngle)
  else (leanAngle, slopeAngle)

/-- The state a `runDetection` iteration can observe and change: the two
observable angle values and whether `requestAnimationFrame` has been handed the
next iteration (`rafRef.current`). -/
structure LoopState where
  leanAngle : Option ℝ
  slopeAngle : Option ℝ
  nextScheduled : Bool

/-- One `runDetection` iteration (usePoseDetection.js). The whole `try` block —
the per-frame `detectForVideo` query plus the angle computation and canvas
drawing — is summarized by `frame`: `.error` when any of it throws, `.ok`
carrying `result?.landmarks?.[0]` otherwise. The `catch` branch only logs, and
the `requestAnimationFrame` call scheduling the next iteration sits after the
`try`/`catch`, so it runs on both paths. -/
noncomputable def runDetection (frame : Except String (Option (List Landmark)))
    (s : LoopState) : LoopState :=
  let s1 :=
    match frame with
    | Except.error _ => s
    | Except.ok (some landmarks) =>
      let a := updateAngles landmarks s.leanAngle s.slopeAngle
      { s with leanAngle := a.1, slopeAngle := a.2 }
    | Except.ok none => s
  { s1 with nextScheduled := true }

/-- The connection edges actually stroked by `drawPose` (usePoseDetection.js):
nothing on an empty landmark set; otherwise every fixed connection whose two
endpoint keypoints both exist and both have visibility at least 0.3. -/
noncomputable def drawnConnections (landmarks : List Landmark) : List (Nat × Nat) :=
  if landmarks.length = 0 then []
  else
    getPoseConnections.filter fun c =>
      match landmarks[c.1]?, landmarks[c.2]? with
      | some pointA, some pointB =>
        decide (¬(pointA.visibility < 0.3 ∨ pointB.visibility < 0.3))
      | _, _ => false

/-- The joint circles actually filled by `drawPose` (usePoseDetection.js):
nothing on an empty landmark set; otherwise every index below the landmark
count whose keypoint has visibility at least 0.3. -/
noncomputable def drawnJoints (landmarks : List Landmark) : List Nat :=
  if landmarks.length = 0 then []
  else
    (List.range landmarks.length).filter fun i =>
      match landmarks[i]? with
      | some point => decide (¬(point.visibility < 0.3))
      | none => false

lemma torsoVector_none_of_lt (l : List Landmark) (h : l.length < 33) :
    torsoVector l = none := by
  unfold torsoVector
  rw [dif_pos h]

lemma torsoVector_of_ge (l : List Landmark) (h : 33 ≤ l.length) :
    torsoVector l = some
      ⟨(l[11].x + l[12].x) / 2 - (l[23].x + l[24].x) / 2,
       (l[11].y + l[12].y) / 2 - (l[23].y + l[24].y) / 2⟩ := by
  unfold torsoVector
  rw [dif_neg (by omega)]
  norm_num

lemma length_of_torsoVector (l : List Landmark) (t : Vec2)
    (h : torsoVector l = some t) : 33 ≤ l.length := by
  by_contra h'
  rw [torsoVector_none_of_lt l (by omega)] at h
  exact Option.noConfusion h

lemma torsoVector_example : torsoVector exampleLandmarks = some ⟨0, -0.6⟩ := by
  rw [torsoVector_of_ge exampleLandmarks (by simp [exampleLandmarks])]
  simp only [exampleLandmarks, List.getElem_ofFn]
  norm_num [Vec2.mk.injEq]

lemma torsoVector_example2 : torsoVector exampleLandmarks2 = some ⟨0, -0.6⟩ := by
  rw [torsoVector_of_ge exampleLandmarks2 (by simp [exampleLandmarks2])]
  simp only [exampleLandmarks2, List.getElem_ofFn]
  norm_num [Vec2.mk.injEq]

lemma torsoVector_degenerate : torsoVector degenerateLandmarks = some ⟨0, 0⟩ := by
  rw [torsoVector_of_ge degenerateLandmarks (by simp [degenerateLandmarks])]
  simp only [degenerateLandmarks, List.getElem_ofFn]
  norm_num [Vec2.mk.injEq]

lemma clamp_eq_self {n a b : ℝ} (h1 : a ≤ n) (h2 : n ≤ b) : clamp n a b = n := by
  unfold clamp
  rw [min_eq_right h2, max_eq_right h1]

lemma deg_pi_frac (c : ℝ) : deg (c * Real.pi / 180) = c := by
  unfold deg
  field_simp

lemma deg_pi : deg Real.pi = 180 := by
  unfold deg
  field_simp

lemma hypot_cos_sin (a : ℝ) : hypot (Real.cos a) (Real.sin a) = 1 := by
  unfold hypot
  rw [Real.cos_sq_add_sin_sq, Real.sqrt_one]

lemma hypot_zero_left (y : ℝ) : hypot 0 y = |y| := by
  unfold hypot
  rw [show (0 : ℝ) ^ 2 + y ^ 2 = y ^ 2 by ring, Real.sqrt_sq_eq_abs]

lemma hypot_zero_right (x : ℝ) : hypot x 0 = |x| := by
  unfold hypot
  rw [show x ^ 2 + (0 : ℝ) ^ 2 = x ^ 2 by ring, Real.sqrt_sq_eq_abs]

lemma angleBetween_of_ne (v1 v2 : Vec2) (h1 : hypot v1.x v1.y ≠ 0)
    (h2 : hypot v2.x v2.y ≠ 0) :
    angleBetween v1 v2 = some (deg (Real.arccos (clamp
      ((v1.x * v2.x + v1.y * v2.y) / (hypot v1.x v1.y * hypot v2.x v2.y)) (-1) 1))) := by
  simp only [angleBetween]
  rw [if_neg (by tauto)]

lemma angleBetween_of_zero (v1 v2 : Vec2)
    (h : hypot v1.x v1.y = 0 ∨ hypot v2.x v2.y = 0) :
    angleBetween v1 v2 = none := by
  simp only [angleBetween]
  rw [if_pos h]

lemma angleBetween_zero_left (v : Vec2) : angleBetween ⟨0, 0⟩ v = none := by
  apply angleBetween_of_zero
  left
  show hypot 0 0 = 0
  rw [hypot_zero_left]
  norm_num

lemma angleBetween_vertical_slope :
    angleBetween REFERENCE_VECTORS.VERTICAL REFERENCE_VECTORS.SLOPE = some 65 := by
  have hV : REFERENCE_VECTORS.VERTICAL = ⟨0, 1⟩ := rfl
  have hS : REFERENCE_VECTORS.SLOPE =
      ⟨Real.cos (25 * Real.pi / 180), Real.sin (25 * Real.pi / 180)⟩ := rfl
  have h1 : hypot (Vec2.mk 0 1).x (Vec2.mk 0 1).y ≠ 0 := by
    show hypot 0 1 ≠ 0
    rw [hypot_zero_left]
    norm_num
  have h2 : hypot (Vec2.mk (Real.cos (25 * Real.pi / 180)) (Real.sin (25 * Real.pi / 180))).x
      (Vec2.mk (Real.cos (25 * Real.pi / 180)) (Real.sin (25 * Real.pi / 180))).y ≠ 0 := by
    show hypot (Real.cos (25 * Real.pi / 180)) (Real.sin (25 * Real.pi / 180)) ≠ 0
    rw [hypot_cos_sin]
    norm_num
  rw [hV, hS, angleBetween_of_ne _ _ h1 h2]
  congr 1
  show deg (Real.arccos (clamp
      ((0 * Real.cos (25 * Real.pi / 180) + 1 * Real.sin (25 * Real.pi / 180)) /
        (hypot 0 1 * hypot (Real.cos (25 * Real.pi / 180)) (Real.sin (25 * Real.pi / 180))))
      (-1) 1)) = 65
  rw [hypot_cos_sin, hypot_zero_left]
  rw [show (0 * Real.cos (25 * Real.pi / 180) + 1 * Real.sin (25 * Real.pi / 180)) /
      (|(1 : ℝ)| * 1) = Real.sin (25 * Real.pi / 180) by
    rw [abs_one]; ring]
  rw [clamp_eq_self (Real.neg_one_le_sin _) (Real.sin_le_one _)]
  rw [show Real.sin (25 * Real.pi / 180) = Real.cos (65 * Real.pi / 180) by
    rw [← Real.cos_pi_div_two_sub]; congr 1; ring]
  rw [Real.arccos_cos (by positivity) (by nlinarith [Real.pi_pos])]
  exact deg_pi_frac 65

lemma angleBetween_eval90 : angleBetween ⟨0, -1⟩ ⟨1, 0⟩ = some 90 := by
  have h1 : hypot (Vec2.mk 0 (-1)).x (Vec2.mk 0 (-1)).y ≠ 0 := by
    show hypot 0 (-1) ≠ 0
    rw [hypot_zero_left]
    norm_num
  have h2 : hypot (Vec2.mk 1 0).x (Vec2.mk 1 0).y ≠ 0 := by
    show hypot 1 0 ≠ 0
    rw [hypot_zero_right]
    norm_num
  rw [angleBetween_of_ne _ _ h1 h2]
  congr 1
  show deg (Real.arccos (clamp ((0 * 1 + (-1) * 0) / (hypot 0 (-1) * hypot 1 0)) (-1) 1)) = 90
  rw [hypot_zero_left, hypot_zero_right]
  rw [show ((0 : ℝ) * 1 + (-1) * 0) / (|(-1 : ℝ)| * |(1 : ℝ)|) = 0 by norm_num]
  rw [clamp_eq_self (by norm_num) (by norm_num), Real.arccos_zero]
  rw [show Real.pi / 2 = 90 * Real.pi / 180 by ring]
  exact deg_pi_frac 90

lemma angleBetween_torso_vertical :
    angleBetween ⟨0, -0.6⟩ REFERENCE_VECTORS.VERTICAL = some 180 := by
  have hV : REFERENCE_VECTORS.VERTICAL = ⟨0, 1⟩ := rfl
  have h1 : hypot (Vec2.mk 0 (-0.6)).x (Vec2.mk 0 (-0.6)).y ≠ 0 := by
    show hypot 0 (-0.6) ≠ 0
    rw [hypot_zero_left]
    norm_num
  have h2 : hypot (Vec2.mk 0 1).x (Vec2.mk 0 1).y ≠ 0 := by
    show hypot 0 1 ≠ 0
    rw [hypot_zero_left]
    norm_num
  rw [hV, angleBetween_of_ne _ _ h1 h2]
  congr 1
  show deg (Real.arccos (clamp ((0 * 0 + (-0.6) * 1) / (hypot 0 (-0.6) * hypot 0 1)) (-1) 1)) = 180
  rw [hypot_zero_left, hypot_zero_left]
  rw [show ((0 : ℝ) * 0 + (-0.6) * 1) / (|(-0.6 : ℝ)| * |(1 : ℝ)|) = -1 by
    rw [abs_one, show |(-0.6 : ℝ)| = 0.6 by rw [abs_of_nonpos] <;> norm_num]
    norm_num]
  rw [clamp_eq_self (le_refl _) (by norm_num), Real.arccos_neg_one, deg_pi]

lemma angleBetween_torso_slope :
    angleBetween ⟨0, -0.6⟩ REFERENCE_VECTORS.SLOPE = some 115 := by
  have hS : REFERENCE_VECTORS.SLOPE =
      ⟨Real.cos (25 * Real.pi / 180), Real.sin (25 * Real.pi / 180)⟩ := rfl
  have h1 : hypot (Vec2.mk 0 (-0.6)).x (Vec2.mk 0 (-0.6)).y ≠ 0 := by
    show hypot 0 (-0.6) ≠ 0
    rw [hypot_zero_left]
    norm_num
  have h2 : hypot (Vec2.mk (Real.cos (25 * Real.pi / 180)) (Real.sin (25 * Real.pi / 180))).x
      (Vec2.mk (Real.cos (25 * Real.pi / 180)) (Real.sin (25 * Real.pi / 180))).y ≠ 0 := by
    show hypot (Real.cos (25 * Real.pi / 180)) (Real.sin (25 * Real.pi / 180)) ≠ 0
    rw [hypot_cos_sin]
    norm_num
  rw [hS, angleBetween_of_ne _ _ h1 h2]
  congr 1
  show deg (Real.arccos (clamp
      ((0 * Real.cos (25 * Real.pi / 180) + (-0.6) * Real.sin (25 * Real.pi / 180)) /
        (hypot 0 (-0.6) * hypot (Real.cos (25 * Real.pi / 180)) (Real.sin (25 * Real.pi / 180))))
      (-1) 1)) = 115
  rw [hypot_cos_sin, hypot_zero_left]
  rw [show (0 * Real.cos (25 * Real.pi / 180) + (-0.6) * Real.sin (25 * Real.pi / 180)) /
      (|(-0.6 : ℝ)| * 1) = -Real.sin (25 * Real.pi / 180) by
    rw [show |(-0.6 : ℝ)| = 0.6 by rw [abs_of_nonpos] <;> norm_num]
    field_simp
    ring]
  rw [clamp_eq_self (by nlinarith [Real.sin_le_one (25 * Real.pi / 180)])
    (by nlinarith [Real.neg_one_le_sin (25 * Real.pi / 180)])]
  rw [show -Real.sin (25 * Real.pi / 180) = Real.cos (115 * Real.pi / 180) by
    rw [show (115 : ℝ) * Real.pi / 180 = Real.pi / 2 - (-(25 * Real.pi / 180)) by ring,
      Real.cos_pi_div_two_sub, Real.sin_neg]]
  rw [Real.arccos_cos (by positivity) (by nlinarith [Real.pi_pos])]
  exact deg_pi_frac 115

lemma callN_cached (fs : List Promise) (p : Promise) :
    callN fs ⟨some p⟩ = (fs.map fun _ => p, ⟨some p⟩, 0) := by
  induction fs with
  | nil => rfl
  | cons f fs ih => simp [callN, getLandmarker, ih]

/-- C1 (code-bug evidence): `getLandmarker` caches the construction promise and
its failure path does not clear `landmarkerPromise`. Starting from the initial
gateway state, a first call starts a construction whose promise rejects; after
the failure handler runs, the rejected promise is still cached, and a second
call returns that same stale rejected promise without starting a new
construction — whereas the claim requires the pending reference to be cleared
on failure so that the second call retries construction. -/
theorem getLandmarker_stale_rejected_promise :
    (getLandmarker ⟨0, PromiseOutcome.rejected⟩ ⟨none⟩).2.2 = true ∧
    (onConstructionFailure
        (getLandmarker ⟨0, PromiseOutcome.rejected⟩ ⟨none⟩).2.1).landmarkerPromise
      = some ⟨0, PromiseOutcome.rejected⟩ ∧
    (getLandmarker ⟨1, PromiseOutcome.resolved⟩
        (onConstructionFailure (getLandmarker ⟨0, PromiseOutcome.rejected⟩ ⟨none⟩).2.1)).1
      = ⟨0, PromiseOutcome.rejected⟩ ∧
    (getLandmarker ⟨1, PromiseOutcome.resolved⟩
        (onConstructionFailure (getLandmarker ⟨0, PromiseOutcome.rejected⟩ ⟨none⟩).2.1)).2.2
      = false := by
  decide

/-- C5: any number of `getLandmarker` calls from the initial state with no
intervening reset starts at most one construction (exactly one as soon as there
is at least one call), and every caller receives the same promise. -/
theorem getLandmarker_single_flight (freshes : List Promise) :
    (callN freshes ⟨none⟩).2.2 ≤ 1 ∧
    (freshes ≠ [] → (callN freshes ⟨none⟩).2.2 = 1) ∧
    ∀ p ∈ (callN freshes ⟨none⟩).1, ∀ q ∈ (callN freshes ⟨none⟩).1, p = q := by
  cases freshes with
  | nil => simp [callN]
  | cons f fs =>
    have h : callN (f :: fs) ⟨none⟩ = (f :: fs.map fun _ => f, ⟨some f⟩, 1) := by
      simp [callN, getLandmarker, callN_cached]
    rw [h]
    refine ⟨le_refl 1, fun _ => rfl, ?_⟩
    intro p hp q hq
    simp only [List.mem_cons, List.mem_map] at hp hq
    rcases hp with rfl | ⟨_, _, rfl⟩ <;> rcases hq with rfl | ⟨_, _, rfl⟩ <;> rfl

/-- Witness for C5: two concrete calls yield exactly one construction, and the
first and second caller receive the same promise. -/
theorem getLandmarker_single_flight_witness :
    (callN [⟨0, PromiseOutcome.rejected⟩, ⟨1, PromiseOutcome.resolved⟩] ⟨none⟩).2.2 = 1 ∧
    (callN [⟨0, PromiseOutcome.rejected⟩, ⟨1, PromiseOutcome.resolved⟩] ⟨none⟩).1.get
        ⟨0, by decide⟩ =
      (callN [⟨0, PromiseOutcome.rejected⟩, ⟨1, PromiseOutcome.resolved⟩] ⟨none⟩).1.get
        ⟨1, by decide⟩ :=
  ⟨(getLandmarker_single_flight
      [⟨0, PromiseOutcome.rejected⟩, ⟨1, PromiseOutcome.resolved⟩]).2.1 (by decide),
   (getLandmarker_single_flight
      [⟨0, PromiseOutcome.rejected⟩, ⟨1, PromiseOutcome.resolved⟩]).2.2 _ (by decide) _
      (by decide)⟩

/-- C7 counterexample: the options object the gateway passes to the detector
factory contains no minimum detection or tracking confidence entries at all, so
in particular it does not supply the claimed 0.5/0.5 thresholds. -/
theorem landmarkerOptions_no_confidence_thresholds :
    landmarkerOptions.minPoseDetectionConfidence = none ∧
    landmarkerOptions.minTrackingConfidence = none ∧
    landmarkerOptions.minPoseDetectionConfidence ≠ some (1 / 2) ∧
    landmarkerOptions.minTrackingConfidence ≠ some (1 / 2) := by
  refine ⟨rfl, rfl, ?_, ?_⟩ <;> simp [landmarkerOptions]

/-- C2 counterexample: the angle between the VERTICAL and SLOPE reference
constants is 65 degrees, which does not lie between 25 and 30 degrees — the
slope constant is tilted 25 degrees from the horizontal axis, not from the
vertical one. -/
theorem slope_reference_angle_counterexample :
    angleBetween REFERENCE_VECTORS.VERTICAL REFERENCE_VECTORS.SLOPE = some 65 ∧
    ¬∃ θ : ℝ, angleBetween REFERENCE_VECTORS.VERTICAL REFERENCE_VECTORS.SLOPE = some θ ∧
      25 ≤ θ ∧ θ ≤ 30 := by
  refine ⟨angleBetween_vertical_slope, ?_⟩
  rintro ⟨θ, hθ, h25, h30⟩
  rw [angleBetween_vertical_slope] at hθ
  have hθ65 : (65 : ℝ) = θ := by injection hθ
  rw [← hθ65] at h30
  linarith

/-- C2 amended: the slope reference constant is the unit vector tilted 25
degrees from the horizontal axis, so the angle between the VERTICAL and SLOPE
reference constants is 65 degrees. -/
theorem slope_reference_angle_amended :
    REFERENCE_VECTORS.SLOPE =
      ⟨Real.cos (25 * Real.pi / 180), Real.sin (25 * Real.pi / 180)⟩ ∧
    hypot REFERENCE_VECTORS.SLOPE.x REFERENCE_VECTORS.SLOPE.y = 1 ∧
    angleBetween REFERENCE_VECTORS.VERTICAL REFERENCE_VECTORS.SLOPE = some 65 :=
  ⟨rfl, hypot_cos_sin (25 * Real.pi / 180), angleBetween_vertical_slope⟩

/-- C3: `torsoVector` returns null for every sequence shorter than 33 landmarks
(and raises nothing, being total), returns the shoulder midpoint (indices 11,
12) minus the hip midpoint (indices 23, 24) for every sequence of length at
least 33, and on the frame with shoulders (0.4, 0.2)/(0.6, 0.2) and hips
(0.4, 0.8)/(0.6, 0.8) it returns (0, -0.6). -/
theorem torsoVector_spec :
    (∀ landmarks : List Landmark, landmarks.length < 33 → torsoVector landmarks = none) ∧
    (∀ landmarks : List Landmark, ∀ h : 33 ≤ landmarks.length,
      torsoVector landmarks = some
        ⟨(landmarks[11].x + landmarks[12].x) / 2 - (landmarks[23].x + landmarks[24].x) / 2,
         (landmarks[11].y + landmarks[12].y) / 2 - (landmarks[23].y + landmarks[24].y) / 2⟩) ∧
    torsoVector exampleLandmarks = some ⟨0, -0.6⟩ :=
  ⟨torsoVector_none_of_lt, torsoVector_of_ge, torsoVector_example⟩

/-- Witness for C3: the empty sequence is shorter than 33 and yields null; the
example frame has length 33 and yields (0, -0.6). -/
theorem torsoVector_spec_witness :
    (([] : List Landmark).length < 33 ∧ torsoVector ([] : List Landmark) = none) ∧
    (33 ≤ exampleLandmarks.length ∧ torsoVector exampleLandmarks = some ⟨0, -0.6⟩) :=
  ⟨⟨by simp, torsoVector_spec.1 [] (by simp)⟩,
   ⟨by simp [exampleLandmarks], by
      rw [torsoVector_spec.2.1 exampleLandmarks (by simp [exampleLandmarks])]
      simp only [exampleLandmarks, List.getElem_ofFn]
      norm_num [Vec2.mk.injEq]⟩⟩

/-- C4: `angleBetween` returns null exactly when at least one of the two
vectors has zero magnitude; otherwise it returns the inverse cosine in degrees
of the normalized dot product clamped to [-1, 1], and that value always lies
in [0, 180]. -/
theorem angleBetween_spec (v1 v2 : Vec2) :
    (angleBetween v1 v2 = none ↔ hypot v1.x v1.y = 0 ∨ hypot v2.x v2.y = 0) ∧
    ∀ θ : ℝ, angleBetween v1 v2 = some θ →
      θ = deg (Real.arccos (clamp
        ((v1.x * v2.x + v1.y * v2.y) / (hypot v1.x v1.y * hypot v2.x v2.y)) (-1) 1)) ∧
      0 ≤ θ ∧ θ ≤ 180 := by
  by_cases h : hypot v1.x v1.y = 0 ∨ hypot v2.x v2.y = 0
  · refine ⟨iff_of_true (angleBetween_of_zero v1 v2 h) h, ?_⟩
    intro θ hθ
    rw [angleBetween_of_zero v1 v2 h] at hθ
    exact Option.noConfusion hθ
  · push_neg at h
    rw [angleBetween_of_ne v1 v2 h.1 h.2]
    refine ⟨⟨fun hc => Option.noConfusion hc, fun hc => ?_⟩, ?_⟩
    · rcases hc with hc | hc
      · exact absurd hc h.1
      · exact absurd hc h.2
    · intro θ hθ
      set z := clamp
        ((v1.x * v2.x + v1.y * v2.y) / (hypot v1.x v1.y * hypot v2.x v2.y)) (-1) 1 with hz
      have hθ' : deg (Real.arccos z) = θ := by injection hθ
      have h0 := Real.arccos_nonneg z
      have hpi := Real.arccos_le_pi z
      refine ⟨hθ'.symm, ?_, ?_⟩
      · rw [← hθ']
        exact div_nonneg (mul_nonneg h0 (by norm_num)) Real.pi_pos.le
      · rw [← hθ']
        show Real.arccos z * 180 / Real.pi ≤ 180
        rw [div_le_iff₀ Real.pi_pos]
        nlinarith [Real.pi_pos]

/-- Witness for C4 at the concrete non-degenerate pair (0, -1), (1, 0): the
returned angle is the clamped-arccos expression and lies in [0, 180]. -/
theorem angleBetween_spec_witness :
    (90 : ℝ) = deg (Real.arccos (clamp
      (((0 : ℝ) * 1 + (-1) * 0) / (hypot 0 (-1) * hypot 1 0)) (-1) 1)) ∧
    (0 : ℝ) ≤ 90 ∧ (90 : ℝ) ≤ 180 :=
  (angleBetween_spec ⟨0, -1⟩ ⟨1, 0⟩).2 90 angleBetween_eval90

/-- C10: two landmark sequences of length at least 33 that agree on the x and y
coordinates of the landmarks at indices 11, 12, 23 and 24 give equal
`torsoVector` results — the z coordinates, the visibility scores and all other
landmarks have no influence. -/
theorem torsoVector_noninterference (l1 l2 : List Landmark)
    (h1 : 33 ≤ l1.length) (h2 : 33 ≤ l2.length)
    (e11x : l1[11].x = l2[11].x) (e11y : l1[11].y = l2[11].y)
    (e12x : l1[12].x = l2[12].x) (e12y : l1[12].y = l2[12].y)
    (e23x : l1[23].x = l2[23].x) (e23y : l1[23].y = l2[23].y)
    (e24x : l1[24].x = l2[24].x) (e24y : l1[24].y = l2[24].y) :
    torsoVector l1 = torsoVector l2 := by
  rw [torsoVector_of_ge l1 h1, torsoVector_of_ge l2 h2,
    e11x, e11y, e12x, e12y, e23x, e23y, e24x, e24y]

/-- Witness for C10: the two example frames agree on the four torso landmark
positions but differ in every z coordinate, every visibility score and every
other landmark, and `torsoVector` returns the same vector for both. -/
theorem torsoVector_noninterference_witness :
    33 ≤ exampleLandmarks.length ∧ 33 ≤ exampleLandmarks2.length ∧
    torsoVector exampleLandmarks = torsoVector exampleLandmarks2 :=
  ⟨by simp [exampleLandmarks], by simp [exampleLandmarks2],
   torsoVector_noninterference exampleLandmarks exampleLandmarks2
    (by simp [exampleLandmarks]) (by simp [exampleLandmarks2])
    (by simp only [exampleLandmarks, exampleLandmarks2, List.getElem_ofFn]; norm_num)
    (by simp only [exampleLandmarks, exampleLandmarks2, List.getElem_ofFn]; norm_num)
    (by simp only [exampleLandmarks, exampleLandmarks2, List.getElem_ofFn]; norm_num)
    (by simp only [exampleLandmarks, exampleLandmarks2, List.getElem_ofFn]; norm_num)
    (by simp only [exampleLandmarks, exampleLandmarks2, List.getElem_ofFn]; norm_num)
    (by simp only [exampleLandmarks, exampleLandmarks2, List.getElem_ofFn]; norm_num)
    (by simp only [exampleLandmarks, exampleLandmarks2, List.getElem_ofFn]; norm_num)
    (by simp only [exampleLandmarks, exampleLandmarks2, List.getElem_ofFn]; norm_num)⟩

/-- C6: a thrown per-frame detection/computation/draw exception is absorbed at
the `runDetection` boundary — the loop state is unchanged except that the next
iteration is still scheduled; and on every path, error or not, `runDetection`
schedules its next iteration, so a single failed frame never terminates the
session. -/
theorem runDetection_survives_frame_error :
    (∀ (e : String) (s : LoopState),
      runDetection (Except.error e) s =
        { leanAngle := s.leanAngle, slopeAngle := s.slopeAngle, nextScheduled := true }) ∧
    ∀ (frame : Except String (Option (List Landmark))) (s : LoopState),
      (runDetection frame s).nextScheduled = true := by
  constructor
  · intro e s
    rfl
  · intro frame s
    cases frame with
    | error e => rfl
    | ok r => cases r <;> rfl

/-- C8: in a frame where a skeleton is detected and the torso vector exists,
each observable angle value is overwritten with its computed angle rounded to
one decimal digit when that angle is defined, and preserved unchanged when the
computed angle is null; when the torso vector is null both observables are
preserved. -/
theorem updateAngles_spec :
    (∀ (l : List Landmark) (la sa : Option ℝ) (torso : Vec2) (v : ℝ),
      torsoVector l = some torso →
      angleBetween torso REFERENCE_VECTORS.VERTICAL = some v →
      (updateAngles l la sa).1 = some (round1 v)) ∧
    (∀ (l : List Landmark) (la sa : Option ℝ) (torso : Vec2),
      torsoVector l = some torso →
      angleBetween torso REFERENCE_VECTORS.VERTICAL = none →
      (updateAngles l la sa).1 = la) ∧
    (∀ (l : List Landmark) (la sa : Option ℝ) (torso : Vec2) (v : ℝ),
      torsoVector l = some torso →
      angleBetween torso REFERENCE_VECTORS.SLOPE = some v →
      (updateAngles l la sa).2 = some (round1 v)) ∧
    (∀ (l : List Landmark) (la sa : Option ℝ) (torso : Vec2),
      torsoVector l = some torso →
      angleBetween torso REFERENCE_VECTORS.SLOPE = none →
      (updateAngles l la sa).2 = sa) ∧
    (∀ (l : List Landmark) (la sa : Option ℝ),
      torsoVector l = none → updateAngles l la sa = (la, sa)) := by
  refine ⟨?_, ?_, ?_, ?_, ?_⟩
  · intro l la sa torso v ht hab
    have hlen : 0 < l.length := by
      have := length_of_torsoVector l torso ht
      omega
    simp [updateAngles, hlen, ht, hab]
  · intro l la sa torso ht hab
    have hlen : 0 < l.length := by
      have := length_of_torsoVector l torso ht
      omega
    simp [updateAngles, hlen, ht, hab]
  · intro l la sa torso v ht hab
    have hlen : 0 < l.length := by
      have := length_of_torsoVector l torso ht
      omega
    simp [updateAngles, hlen, ht, hab]
  · intro l la sa torso ht hab
    have hlen : 0 < l.length := by
      have := length_of_torsoVector l torso ht
      omega
    simp [updateAngles, hlen, ht, hab]
  · intro l la sa ht
    by_cases hlen : 0 < l.length
    · simp [updateAngles, hlen, ht]
    · simp [updateAngles, hlen]

/-- Witness for C8: on the example frame the torso vector is (0, -0.6), the
lean angle is 180 and the slope angle is 115, each stored rounded to one
decimal digit; on the degenerate frame the torso vector is the zero vector,
both angles are null, and the previous observable values 42 and 7 are
preserved. -/
theorem updateAngles_spec_witness :
    (updateAngles exampleLandmarks none none).1 = some (round1 180) ∧
    (updateAngles exampleLandmarks none none).2 = some (round1 115) ∧
    (updateAngles degenerateLandmarks (some 42) (some 7)).1 = some 42 ∧
    (updateAngles degenerateLandmarks (some 42) (some 7)).2 = some 7 :=
  ⟨updateAngles_spec.1 exampleLandmarks none none ⟨0, -0.6⟩ 180
     torsoVector_example angleBetween_torso_vertical,
   updateAngles_spec.2.2.1 exampleLandmarks none none ⟨0, -0.6⟩ 115
     torsoVector_example angleBetween_torso_slope,
   updateAngles_spec.2.1 degenerateLandmarks (some 42) (some 7) ⟨0, 0⟩
     torsoVector_degenerate (angleBetween_zero_left _),
   updateAngles_spec.2.2.2.1 degenerateLandmarks (some 42) (some 7) ⟨0, 0⟩
     torsoVector_degenerate (angleBetween_zero_left _)⟩

/-- C9: the overlay renderer never fills a joint circle for a keypoint whose
visibility is below 0.3, and never strokes a connection edge unless both
endpoint keypoints exist and both have visibility at least 0.3. -/
theorem drawPose_visibility_filter :
    (∀ (landmarks : List Landmark) (i : Nat), i ∈ drawnJoints landmarks →
      ∃ point, landmarks[i]? = some point ∧ ¬(point.visibility < 0.3)) ∧
    ∀ (landmarks : List Landmark) (c : Nat × Nat), c ∈ drawnConnections landmarks →
      ∃ pointA pointB, landmarks[c.1]? = some pointA ∧ landmarks[c.2]? = some pointB ∧
        ¬(pointA.visibility < 0.3) ∧ ¬(pointB.visibility < 0.3) := by
  constructor
  · intro landmarks i hi
    unfold drawnJoints at hi
    by_cases h0 : landmarks.length = 0
    · rw [if_pos h0] at hi
      exact absurd hi (List.not_mem_nil i)
    · rw [if_neg h0] at hi
      have hp := (List.mem_filter.mp hi).2
      revert hp
      cases hq : landmarks[i]? with
      | none =>
        intro hp
        simp at hp
      | some point =>
        intro hp
        refine ⟨point, rfl, ?_⟩
        simpa using hp
  · intro landmarks c hc
    unfold drawnConnections at hc
    by_cases h0 : landmarks.length = 0
    · rw [if_pos h0] at hc
      exact absurd hc (List.not_mem_nil c)
    · rw [if_neg h0] at hc
      have hp := (List.mem_filter.mp hc).2
      revert hp
      cases hqa : landmarks[c.1]? with
      | none =>
        intro hp
        simp at hp
      | some pointA =>
        cases hqb : landmarks[c.2]? with
        | none =>
          intro hp
          simp at hp
        | some pointB =>
          intro hp
          rw [decide_eq_true_eq] at hp
          push_neg at hp
          exact ⟨pointA, pointB, rfl, rfl, by linarith [hp.1], by linarith [hp.2]⟩

/-- Witness for C9 on a concrete input: index 0 (visibility 1) is a drawn
joint, and the connection (0, 1) is a drawn edge; both endpoints exist and have
visibility at least 0.3. -/
theorem drawPose_visibility_filter_witness :
    (∃ point, visLandmarks[(0 : Nat)]? = some point ∧ ¬(point.visibility < 0.3)) ∧
    ∃ pointA pointB, visLandmarks[(0 : Nat)]? = some pointA ∧
      visLandmarks[(1 : Nat)]? = some pointB ∧
      ¬(pointA.visibility < 0.3) ∧ ¬(pointB.visibility < 0.3) :=
  ⟨drawPose_visibility_filter.1 visLandmarks 0 (by
      unfold drawnJoints
      rw [if_neg (by simp [visLandmarks])]
      apply List.mem_filter.mpr
      refine ⟨by simp [visLandmarks], ?_⟩
      show decide (¬((1 : ℝ) < 0.3)) = true
      simp only [decide_eq_true_eq]
      norm_num),
   drawPose_visibility_filter.2 visLandmarks (0, 1) (by
      unfold drawnConnections
      rw [if_neg (by simp [visLandmarks])]
      apply List.mem_filter.mpr
      refine ⟨by decide, ?_⟩
      show decide (¬((1 : ℝ) < 0.3 ∨ (0.5 : ℝ) < 0.3)) = true
      simp only [decide_eq_true_eq]
      push_neg
      norm_num)⟩

/-- C7 amended: at construction the gateway supplies the model asset path, the
per-frame "VIDEO" running mode and max pose count 1 in the options passed
opaquely to the detector factory; it passes no minimum detection or tracking
confidence options, leaving those to the detector's own defaults. -/
theorem landmarkerOptions_amended :
    landmarkerOptions.baseOptions.modelAssetPath = MEDIAPIPE_CONFIG.MODEL_URL ∧
    landmarkerOptions.runningMode = "VIDEO" ∧
    landmarkerOptions.numPoses = 1 ∧
    landmarkerOptions.minPoseDetectionConfidence = none ∧
    landmarkerOptions.minTrackingConfidence = none :=
  ⟨rfl, rfl, rfl, rfl, rfl⟩

end RideLvl
